import Mathlib

/-!
Verification of the Jyotishya astrology API core calculations.

Shallow embedding of the Python sources in Lean 4.  Python floats are
modelled as rationals (all operations used by the code under scrutiny --
addition, multiplication, division, %, int(), round() -- are exact on the
inputs the claims quantify over, so the rational model matches the
mathematical reading of the spec).  Python lists/dicts are modelled as
Lean lists and association lists; fallible accesses (IndexError /
KeyError) are modelled with Option.  Layout: all definitions first,
then the supporting lemmas and the claim theorems.
-/

set_option maxRecDepth 8000

/-- Python float `%` for the moduli used in this code base (positive
modulus): the result has the sign of the modulus, `a % m = a - m*floor(a/m)`. -/
def pymod (a m : ℚ) : ℚ := a - m * ⌊a / m⌋

/-- Python `int()` on a float: truncation toward zero. -/
def pyInt (q : ℚ) : ℤ := if 0 ≤ q then ⌊q⌋ else -⌊-q⌋

/-- Python `round()` to an integer: round half to even (banker's rounding). -/
def roundHalfEven (q : ℚ) : ℤ :=
  if Int.fract q < 1/2 then ⌊q⌋
  else if 1/2 < Int.fract q then ⌊q⌋ + 1
  else if ⌊q⌋ % 2 = 0 then ⌊q⌋ else ⌊q⌋ + 1

/-- Python `round(x, n)` on a float, in exact rational arithmetic. -/
def pyRound (n : ℕ) (q : ℚ) : ℚ := (roundHalfEven (q * 10 ^ n) : ℚ) / 10 ^ n

/-- Python list subscription `l[i]`, including negative-index semantics;
out-of-range access (IndexError) is `none`. -/
def pyIndex {α : Type} (l : List α) (i : ℤ) : Option α :=
  if 0 ≤ i then l.get? i.toNat
  else if 0 ≤ (l.length : ℤ) + i then l.get? ((l.length : ℤ) + i).toNat else none

/-- Python `dict.get` / `dict[k]` lookup on an association list (first match). -/
def dictGet {α β : Type} [DecidableEq α] : List (α × β) → α → Option β
  | [], _ => none
  | (k, v) :: rest, a => if a = k then some v else dictGet rest a

/-- Python `d[k] = v` on an association list: overwrite in place if the key
exists (dicts keep insertion order), otherwise append. -/
def dictSet {α β : Type} [DecidableEq α] (d : List (α × β)) (k : α) (v : β) :
    List (α × β) :=
  if (dictGet d k).isSome then d.map (fun kv => if kv.1 = k then (k, v) else kv)
  else d ++ [(k, v)]

namespace Yogas
/-! Embedding of src/internal/yogas.py. -/

/-- RASHI_LORDS dict of yogas.py (integer-keyed; the identical table appears
in divisional.py). -/
def RASHI_LORDS : List (ℤ × String) :=
  [(1, "Mars"), (2, "Venus"), (3, "Mercury"), (4, "Moon"),
   (5, "Sun"), (6, "Mercury"), (7, "Venus"), (8, "Mars"),
   (9, "Jupiter"), (10, "Saturn"), (11, "Saturn"), (12, "Jupiter")]

/-- EXALTATION dict of yogas.py. -/
def EXALTATION : List (String × ℤ) :=
  [("Sun", 1), ("Moon", 2), ("Mars", 10), ("Mercury", 6),
   ("Jupiter", 4), ("Venus", 12), ("Saturn", 7)]

/-- DEBILITATION dict of yogas.py. -/
def DEBILITATION : List (String × ℤ) :=
  [("Sun", 7), ("Moon", 8), ("Mars", 4), ("Mercury", 12),
   ("Jupiter", 10), ("Venus", 6), ("Saturn", 1)]

/-- get_rashi_from_lon of yogas.py: int(longitude / 30) + 1. -/
def get_rashi_from_lon (longitude : ℚ) : ℤ := pyInt (longitude / 30) + 1

/-- get_house_from_lon of yogas.py:
diff = (planet_lon - asc_lon) % 360; int(diff / 30) + 1. -/
def get_house_from_lon (planet_lon asc_lon : ℚ) : ℤ :=
  pyInt (pymod (planet_lon - asc_lon) 360 / 30) + 1

/-- is_exalted of yogas.py: EXALTATION.get(planet) == rashi. -/
def is_exalted (planet : String) (rashi : ℤ) : Bool :=
  dictGet EXALTATION planet = some rashi

/-- is_debilitated of yogas.py: DEBILITATION.get(planet) == rashi. -/
def is_debilitated (planet : String) (rashi : ℤ) : Bool :=
  dictGet DEBILITATION planet = some rashi

/-- One entry of the planets_list argument of detect_yogas: its "name" and
"fullDegree" fields. -/
structure PlanetInput where
  name : String
  fullDegree : ℚ

/-- The per-planet record detect_yogas stores in its resolved planets dict. -/
structure ResolvedPlanet where
  longitude : ℚ
  rashi : ℤ
  house : ℤ
  isEx : Bool
  isDeb : Bool
deriving DecidableEq

/-- The loop body of detect_yogas that builds the resolved planets dict:
entries with empty name or falsy (zero) longitude are skipped
(the Python test is `if not name or not lon`). -/
def resolve_step (asc : ℚ) (acc : List (String × ResolvedPlanet))
    (p : PlanetInput) : List (String × ResolvedPlanet) :=
  if p.name = "" ∨ p.fullDegree = 0 then acc
  else
    let rashi := get_rashi_from_lon p.fullDegree
    dictSet acc p.name
      { longitude := p.fullDegree
        rashi := rashi
        house := get_house_from_lon p.fullDegree asc
        isEx := is_exalted p.name rashi
        isDeb := is_debilitated p.name rashi }

/-- The resolved planets dict built at the top of detect_yogas from
planets_list and the ascendant longitude. -/
def resolve_planets (planets_list : List PlanetInput) (ascendant_lon : ℚ) :
    List (String × ResolvedPlanet) :=
  planets_list.foldl (resolve_step ascendant_lon) []

/-- The predicate deciding whether detect_yogas keeps a planets_list entry. -/
def kept (p : PlanetInput) : Prop := ¬(p.name = "" ∨ p.fullDegree = 0)

instance : DecidablePred kept := fun p => by unfold kept; infer_instance

end Yogas

namespace Transits
/-! Embedding of src/internal/transits.py. -/

/-- One entry of the ASPECTS table: name, angle, orb, nature. -/
structure AspectDef where
  name : String
  angle : ℚ
  orb : ℚ
  nature : String

/-- The ASPECTS dict of transits.py, in its (insertion-ordered) iteration
order. -/
def ASPECTS : List AspectDef :=
  [⟨"conjunction", 0, 8, "intense"⟩,
   ⟨"opposition", 180, 8, "challenging"⟩,
   ⟨"trine", 120, 6, "harmonious"⟩,
   ⟨"square", 90, 6, "challenging"⟩,
   ⟨"sextile", 60, 4, "harmonious"⟩]

/-- The dict calculate_aspect returns when an aspect matches. -/
structure AspectMatch where
  aspect : String
  angle : ℚ
  actual_angle : ℚ
  orb : ℚ
  exactness : ℚ
  nature : String
deriving DecidableEq

/-- The loop of calculate_aspect: walk the ASPECTS table in order and
return the first entry whose orb contains the separation. -/
def find_aspect (diff : ℚ) : List AspectDef → Option AspectMatch
  | [] => none
  | a :: rest =>
    if |diff - a.angle| ≤ a.orb then
      some { aspect := a.name
             angle := a.angle
             actual_angle := pyRound 2 diff
             orb := pyRound 2 |diff - a.angle|
             exactness := pyRound 2 (1 - |diff - a.angle| / a.orb)
             nature := a.nature }
    else find_aspect diff rest

/-- calculate_aspect of transits.py: fold the separation into [0, 180] and
look for the first matching aspect; `None` when nothing matches. -/
def calculate_aspect (transit_lon natal_lon : ℚ) : Option AspectMatch :=
  let diff0 := |transit_lon - natal_lon|
  find_aspect (if diff0 > 180 then 360 - diff0 else diff0) ASPECTS

/-- The mean Rahu longitude computed inside get_current_transits, as a
function of days_since_2000 (the integer day count now - 2000-01-01):
rahu_movement = (days / 365.25) * 19.3; rahu_lon = (0 - rahu_movement) % 360. -/
def rahu_lon (d : ℤ) : ℚ := pymod (0 - ((d : ℚ) / 365.25) * 19.3) 360

/-- ketu_lon of get_current_transits: (rahu_lon + 180) % 360. -/
def ketu_lon (d : ℤ) : ℚ := pymod (rahu_lon d + 180) 360

/-- The value stored in transits["Rahu"]: round(rahu_lon, 4). -/
def transit_Rahu (d : ℤ) : ℚ := pyRound 4 (rahu_lon d)

/-- The value stored in transits["Ketu"]: round(ketu_lon, 4). -/
def transit_Ketu (d : ℤ) : ℚ := pyRound 4 (ketu_lon d)

end Transits

namespace Dasha
/-! Embedding of src/internal/dasha.py.  datetime values are modelled as
rational day numbers (the only operations performed on them are adding a
timedelta of a rational number of days, and taking the .days field of a
difference, which is the floor of the difference in days). -/

/-- DASHA_YEARS dict of dasha.py. -/
def DASHA_YEARS : List (String × ℚ) :=
  [("Ketu", 7), ("Venus", 20), ("Sun", 6), ("Moon", 10), ("Mars", 7),
   ("Rahu", 18), ("Jupiter", 16), ("Saturn", 19), ("Mercury", 17)]

/-- TOTAL_DASHA_YEARS of dasha.py. -/
def TOTAL_DASHA_YEARS : ℚ := 120

/-- DASHA_SEQUENCE of dasha.py. -/
def DASHA_SEQUENCE : List String :=
  ["Ketu", "Venus", "Sun", "Moon", "Mars", "Rahu", "Jupiter", "Saturn", "Mercury"]

/-- Total accessor for DASHA_YEARS[p].  In Python an unknown key raises
KeyError; every lord looked up by the dasha code is drawn from
DASHA_SEQUENCE, whose members are exactly the keys, so the default 0 is
never reached under the membership hypotheses of the theorems below. -/
def dasha_years (p : String) : ℚ := (dictGet DASHA_YEARS p).getD 0

/-- NAKSHATRA_LORDS list of dasha.py (27 entries, the 9-lord cycle three
times). -/
def NAKSHATRA_LORDS : List String :=
  ["Ketu", "Venus", "Sun", "Moon", "Mars", "Rahu", "Jupiter", "Saturn", "Mercury",
   "Ketu", "Venus", "Sun", "Moon", "Mars", "Rahu", "Jupiter", "Saturn", "Mercury",
   "Ketu", "Venus", "Sun", "Moon", "Mars", "Rahu", "Jupiter", "Saturn", "Mercury"]

/-- NAKSHATRA_NAMES list of dasha.py. -/
def NAKSHATRA_NAMES : List String :=
  ["Ashwini", "Bharani", "Krittika", "Rohini", "Mrigashira",
   "Ardra", "Punarvasu", "Pushya", "Ashlesha", "Magha",
   "Purva Phalguni", "Uttara Phalguni", "Hasta", "Chitra", "Swati",
   "Vishakha", "Anuradha", "Jyeshtha", "Mula", "Purva Ashadha",
   "Uttara Ashadha", "Shravana", "Dhanishtha", "Shatabhisha",
   "Purva Bhadrapada", "Uttara Bhadrapada", "Revati"]

/-- nakshatra_num of calculate_vimsottari_dasha:
int(moon_longitude / (360/27)). -/
def nakshatra_num (moon_longitude : ℚ) : ℤ := pyInt (moon_longitude / (360 / 27))

/-- nakshatra_name of calculate_vimsottari_dasha:
NAKSHATRA_NAMES[nakshatra_num] (IndexError modelled as none). -/
def nakshatra_name (moon_longitude : ℚ) : Option String :=
  pyIndex NAKSHATRA_NAMES (nakshatra_num moon_longitude)

/-- progress_in_nakshatra of calculate_vimsottari_dasha:
(moon_longitude % nakshatra_span) / nakshatra_span. -/
def progress_in_nakshatra (moon_longitude : ℚ) : ℚ :=
  pymod moon_longitude (360 / 27) / (360 / 27)

/-- first_dasha_lord of calculate_vimsottari_dasha:
NAKSHATRA_LORDS[nakshatra_num]. -/
def first_dasha_lord (moon_longitude : ℚ) : Option String :=
  pyIndex NAKSHATRA_LORDS (nakshatra_num moon_longitude)

/-- remaining_years of calculate_vimsottari_dasha:
first_dasha_years - progress_in_nakshatra * first_dasha_years (the elapsed
portion of the first Mahadasha is discarded). -/
def remaining_years (moon_longitude : ℚ) : Option ℚ :=
  (first_dasha_lord moon_longitude).map
    (fun lord => dasha_years lord - progress_in_nakshatra moon_longitude * dasha_years lord)

/-- One antardasha record produced by calculate_antardashas (start/end as
day numbers; duration_days is int(antar_days) as stored in the dict; the
strftime formatting of the dates is presentation only and not modelled). -/
structure Antardasha where
  planet : String
  start_date : ℚ
  end_date : ℚ
  duration_days : ℤ
deriving DecidableEq

/-- The `for i in range(9)` loop of calculate_antardashas: `fuel` counts the
remaining iterations, `i` is the loop variable. -/
def antardasha_loop (D : ℚ) (start_index : ℕ) : ℚ → ℕ → ℕ → List Antardasha
  | _, _, 0 => []
  | current_date, i, fuel + 1 =>
    let antar_lord := DASHA_SEQUENCE.getD ((start_index + i) % 9) ""
    let antar_days := D * (dasha_years antar_lord / TOTAL_DASHA_YEARS)
    { planet := antar_lord
      start_date := current_date
      end_date := current_date + antar_days
      duration_days := pyInt antar_days } ::
      antardasha_loop D start_index (current_date + antar_days) (i + 1) fuel

/-- calculate_antardashas of dasha.py: maha_duration_days is the .days
field of the datetime difference (floor of the day count);
DASHA_SEQUENCE.index raises for a lord outside the sequence, which the
theorems exclude by hypothesis. -/
def calculate_antardashas (mahadasha_lord : String) (maha_start maha_end : ℚ) :
    List Antardasha :=
  let maha_duration_days : ℤ := ⌊maha_end - maha_start⌋
  let start_index := DASHA_SEQUENCE.indexOf mahadasha_lord
  antardasha_loop (maha_duration_days : ℚ) start_index maha_start 0 9

end Dasha

namespace Matching
/-! Embedding of src/internal/matching.py.  Each calculate_* function below
is the "score" field of the dict returned by the corresponding Python
function (the description strings and echoed inputs carry no logic). -/

/-- NAKSHATRAS list of matching.py. -/
def NAKSHATRAS : List String :=
  ["Ashwini", "Bharani", "Krittika", "Rohini", "Mrigashira",
   "Ardra", "Punarvasu", "Pushya", "Ashlesha", "Magha",
   "Purva Phalguni", "Uttara Phalguni", "Hasta", "Chitra", "Swati",
   "Vishakha", "Anuradha", "Jyeshtha", "Mula", "Purva Ashadha",
   "Uttara Ashadha", "Shravana", "Dhanishtha", "Shatabhisha",
   "Purva Bhadrapada", "Uttara Bhadrapada", "Revati"]

/-- RASHIS list of matching.py. -/
def RASHIS : List String :=
  ["Aries", "Taurus", "Gemini", "Cancer", "Leo", "Virgo",
   "Libra", "Scorpio", "Sagittarius", "Capricorn", "Aquarius", "Pisces"]

/-- RASHI_VARNA dict of matching.py. -/
def RASHI_VARNA : List (String × ℤ) :=
  [("Cancer", 1), ("Scorpio", 1), ("Pisces", 1),
   ("Aries", 2), ("Leo", 2), ("Sagittarius", 2),
   ("Taurus", 3), ("Virgo", 3), ("Capricorn", 3),
   ("Gemini", 4), ("Libra", 4), ("Aquarius", 4)]

/-- VASHYA_CATEGORIES dict of matching.py. -/
def VASHYA_CATEGORIES : List (String × String) :=
  [("Aries", "Chatushpada"), ("Taurus", "Chatushpada"), ("Leo", "Vanachara"),
   ("Capricorn", "Chatushpada"), ("Sagittarius", "Chatushpada"),
   ("Cancer", "Keet"), ("Scorpio", "Keet"), ("Pisces", "Jalchar"),
   ("Gemini", "Manava"), ("Virgo", "Manava"), ("Libra", "Manava"),
   ("Aquarius", "Manava")]

/-- NAKSHATRA_YONI list of matching.py. -/
def NAKSHATRA_YONI : List String :=
  ["Horse", "Elephant", "Sheep", "Snake", "Snake",
   "Dog", "Cat", "Sheep", "Cat", "Rat",
   "Rat", "Cow", "Buffalo", "Tiger", "Buffalo",
   "Tiger", "Deer", "Deer", "Dog", "Monkey",
   "Mongoose", "Monkey", "Lion", "Horse", "Lion",
   "Cow", "Elephant"]

/-- YONI_ENEMIES list of matching.py. -/
def YONI_ENEMIES : List (String × String) :=
  [("Horse", "Buffalo"), ("Elephant", "Lion"), ("Sheep", "Monkey"),
   ("Snake", "Mongoose"), ("Dog", "Deer"), ("Cat", "Rat"),
   ("Tiger", "Cow")]

/-- NAKSHATRA_GANA list of matching.py. -/
def NAKSHATRA_GANA : List String :=
  ["Deva", "Manushya", "Rakshasa", "Manushya", "Deva",
   "Manushya", "Deva", "Deva", "Rakshasa", "Rakshasa",
   "Manushya", "Manushya", "Deva", "Rakshasa", "Deva",
   "Rakshasa", "Deva", "Rakshasa", "Rakshasa", "Manushya",
   "Manushya", "Deva", "Rakshasa", "Rakshasa", "Manushya",
   "Manushya", "Deva"]

/-- NAKSHATRA_NADI list of matching.py. -/
def NAKSHATRA_NADI : List String :=
  ["Vata", "Pitta", "Kapha", "Kapha", "Pitta",
   "Vata", "Vata", "Pitta", "Kapha", "Kapha",
   "Pitta", "Vata", "Vata", "Pitta", "Kapha",
   "Kapha", "Pitta", "Vata", "Vata", "Pitta",
   "Kapha", "Kapha", "Pitta", "Vata", "Vata",
   "Pitta", "Kapha"]

/-- RASHI_LORDS dict of matching.py (string-keyed). -/
def RASHI_LORDS : List (String × String) :=
  [("Aries", "Mars"), ("Taurus", "Venus"), ("Gemini", "Mercury"),
   ("Cancer", "Moon"), ("Leo", "Sun"), ("Virgo", "Mercury"),
   ("Libra", "Venus"), ("Scorpio", "Mars"), ("Sagittarius", "Jupiter"),
   ("Capricorn", "Saturn"), ("Aquarius", "Saturn"), ("Pisces", "Jupiter")]

/-- PLANET_FRIENDS dict of matching.py. -/
def PLANET_FRIENDS : List (String × List String) :=
  [("Sun", ["Moon", "Mars", "Jupiter"]),
   ("Moon", ["Sun", "Mercury"]),
   ("Mars", ["Sun", "Moon", "Jupiter"]),
   ("Mercury", ["Sun", "Venus"]),
   ("Jupiter", ["Sun", "Moon", "Mars"]),
   ("Venus", ["Mercury", "Saturn"]),
   ("Saturn", ["Mercury", "Venus"])]

/-- PLANET_ENEMIES dict of matching.py. -/
def PLANET_ENEMIES : List (String × List String) :=
  [("Sun", ["Venus", "Saturn"]),
   ("Moon", []),
   ("Mars", ["Mercury"]),
   ("Mercury", ["Moon"]),
   ("Jupiter", ["Mercury", "Venus"]),
   ("Venus", ["Sun", "Moon"]),
   ("Saturn", ["Sun", "Moon", "Mars"])]

/-- The nakshatra number of get_nakshatra_from_moon:
int(moon_longitude / (360/27)) + 1. -/
def nakshatra_number (moon_longitude : ℚ) : ℤ :=
  pyInt (moon_longitude / (360 / 27)) + 1

/-- The nakshatra name of get_nakshatra_from_moon:
NAKSHATRAS[nakshatra_num] (IndexError as none). -/
def nakshatra_name (moon_longitude : ℚ) : Option String :=
  pyIndex NAKSHATRAS (pyInt (moon_longitude / (360 / 27)))

/-- The rashi number of get_rashi_from_moon: int(moon_longitude / 30) + 1. -/
def rashi_number (moon_longitude : ℚ) : ℤ := pyInt (moon_longitude / 30) + 1

/-- The rashi name of get_rashi_from_moon: RASHIS[rashi_num]. -/
def rashi_name (moon_longitude : ℚ) : Option String :=
  pyIndex RASHIS (pyInt (moon_longitude / 30))

/-- Score of calculate_varna (max 1): groom's varna equal or lower number
than bride's scores 1. -/
def calculate_varna (bride_rashi groom_rashi : String) : ℚ :=
  let bride_varna := (dictGet RASHI_VARNA bride_rashi).getD 1
  let groom_varna := (dictGet RASHI_VARNA groom_rashi).getD 1
  if groom_varna ≤ bride_varna then 1 else 0

/-- Score of calculate_vashya (max 2). -/
def calculate_vashya (bride_rashi groom_rashi : String) : ℚ :=
  let bride_vashya := (dictGet VASHYA_CATEGORIES bride_rashi).getD "Manava"
  let groom_vashya := (dictGet VASHYA_CATEGORIES groom_rashi).getD "Manava"
  if bride_vashya = groom_vashya then 2
  else if bride_rashi = groom_rashi then 2
  else 1

/-- Score of calculate_tara (max 3): 1.5 points for each direction whose
tara position is auspicious. -/
def calculate_tara (bride_nakshatra groom_nakshatra : ℤ) : ℚ :=
  let diff1 := (groom_nakshatra - bride_nakshatra) % 27 + 1
  let tara1 := (diff1 - 1) % 9 + 1
  let diff2 := (bride_nakshatra - groom_nakshatra) % 27 + 1
  let tara2 := (diff2 - 1) % 9 + 1
  (if tara1 ∈ ([1, 2, 4, 6, 8, 9] : List ℤ) then (3/2 : ℚ) else 0) +
  (if tara2 ∈ ([1, 2, 4, 6, 8, 9] : List ℤ) then (3/2 : ℚ) else 0)

/-- Score of calculate_yoni (max 4); the NAKSHATRA_YONI list accesses can
raise IndexError for out-of-range nakshatra numbers, modelled as none. -/
def calculate_yoni (bride_nakshatra groom_nakshatra : ℤ) : Option ℚ := do
  let bride_yoni ← pyIndex NAKSHATRA_YONI (bride_nakshatra - 1)
  let groom_yoni ← pyIndex NAKSHATRA_YONI (groom_nakshatra - 1)
  if bride_yoni = groom_yoni then pure 4
  else if YONI_ENEMIES.any (fun pair =>
      (bride_yoni == pair.1 || bride_yoni == pair.2) &&
      (groom_yoni == pair.1 || groom_yoni == pair.2)) then pure 0
  else pure 2

/-- Score of calculate_graha_maitri (max 5). -/
def calculate_graha_maitri (bride_rashi groom_rashi : String) : ℚ :=
  let bride_lord := (dictGet RASHI_LORDS bride_rashi).getD "Sun"
  let groom_lord := (dictGet RASHI_LORDS groom_rashi).getD "Sun"
  let bf := (dictGet PLANET_FRIENDS bride_lord).getD []
  let gf := (dictGet PLANET_FRIENDS groom_lord).getD []
  let be := (dictGet PLANET_ENEMIES bride_lord).getD []
  let ge := (dictGet PLANET_ENEMIES groom_lord).getD []
  if bride_lord = groom_lord then 5
  else if groom_lord ∈ bf ∧ bride_lord ∈ gf then 5
  else if groom_lord ∈ bf ∨ bride_lord ∈ gf then 4
  else if groom_lord ∈ be ∧ bride_lord ∈ ge then 0
  else if groom_lord ∈ be ∨ bride_lord ∈ ge then 1
  else 5/2

/-- Score of calculate_gana (max 6). -/
def calculate_gana (bride_nakshatra groom_nakshatra : ℤ) : Option ℚ := do
  let bride_gana ← pyIndex NAKSHATRA_GANA (bride_nakshatra - 1)
  let groom_gana ← pyIndex NAKSHATRA_GANA (groom_nakshatra - 1)
  if bride_gana = groom_gana then pure 6
  else if bride_gana = "Deva" ∧ groom_gana = "Manushya" then pure 5
  else if bride_gana = "Manushya" ∧ groom_gana = "Deva" then pure 5
  else if ("Rakshasa" = bride_gana ∨ "Rakshasa" = groom_gana) ∧
      bride_gana ≠ groom_gana then pure 0
  else pure 3

/-- Score of calculate_bhakoot (max 7): 0 exactly when some inauspicious
pair contains both the forward and the reverse sign distance. -/
def calculate_bhakoot (bride_rashi_num groom_rashi_num : ℤ) : ℚ :=
  let diff := (groom_rashi_num - bride_rashi_num) % 12 + 1
  let reverse_diff := (bride_rashi_num - groom_rashi_num) % 12 + 1
  if ([(2, 12), (5, 9), (6, 8)] : List (ℤ × ℤ)).any (fun pair =>
      (diff == pair.1 || diff == pair.2) &&
      (reverse_diff == pair.1 || reverse_diff == pair.2)) then 0
  else 7

/-- Score of calculate_nadi (max 8): same nadi scores 0 (Nadi Dosha). -/
def calculate_nadi (bride_nakshatra groom_nakshatra : ℤ) : Option ℚ := do
  let bride_nadi ← pyIndex NAKSHATRA_NADI (bride_nakshatra - 1)
  let groom_nadi ← pyIndex NAKSHATRA_NADI (groom_nakshatra - 1)
  if bride_nadi = groom_nadi then pure 0 else pure 8

/-- The total_score of calculate_compatibility: the sum of the 8 koot
scores.  The Option layer records the IndexErrors Python would raise while
deriving the nakshatra/rashi names for out-of-range longitudes. -/
def total_score (bride_moon_longitude groom_moon_longitude : ℚ) : Option ℚ := do
  let _bride_nak_name ← nakshatra_name bride_moon_longitude
  let _groom_nak_name ← nakshatra_name groom_moon_longitude
  let bride_rashi ← rashi_name bride_moon_longitude
  let groom_rashi ← rashi_name groom_moon_longitude
  let bn := nakshatra_number bride_moon_longitude
  let gn := nakshatra_number groom_moon_longitude
  let yoni ← calculate_yoni bn gn
  let gana ← calculate_gana bn gn
  let nadi ← calculate_nadi bn gn
  pure (calculate_varna bride_rashi groom_rashi +
    calculate_vashya bride_rashi groom_rashi +
    calculate_tara bn gn + yoni +
    calculate_graha_maitri bride_rashi groom_rashi + gana +
    calculate_bhakoot (rashi_number bride_moon_longitude)
      (rashi_number groom_moon_longitude) + nadi)

/-- The verdict thresholds of calculate_compatibility on the total score. -/
def verdict_of (total : ℚ) : String :=
  if 25 ≤ total then "Excellent Match"
  else if 18 ≤ total then "Good Match"
  else if 12 ≤ total then "Average Match"
  else "Below Average Match"

/-- The verdict field of calculate_compatibility. -/
def compat_verdict (bride_moon groom_moon : ℚ) : Option String :=
  (total_score bride_moon groom_moon).map verdict_of

end Matching

namespace Divisional
/-! Embedding of src/internal/divisional.py. -/

/-- SIGNS list of divisional.py. -/
def SIGNS : List String :=
  ["Aries", "Taurus", "Gemini", "Cancer", "Leo", "Virgo",
   "Libra", "Scorpio", "Sagittarius", "Capricorn", "Aquarius", "Pisces"]

/-- RASHI_LORDS dict of divisional.py (integer-keyed; textually identical
to the one in yogas.py). -/
def RASHI_LORDS : List (ℤ × String) :=
  [(1, "Mars"), (2, "Venus"), (3, "Mercury"), (4, "Moon"),
   (5, "Sun"), (6, "Mercury"), (7, "Venus"), (8, "Mars"),
   (9, "Jupiter"), (10, "Saturn"), (11, "Saturn"), (12, "Jupiter")]

/-- The fields of a divisional chart position that carry the logic: chart
code, derived rashi number, sign name, sign lord (the echoed degree and
subdivision-number fields are presentation only). -/
structure ChartPosition where
  chart : String
  rashi : ℤ
  sign : String
  lord : String
deriving DecidableEq

/-- get_d1_position of divisional.py; none models the IndexError/KeyError
raised when the computed rashi falls outside the tables. -/
def get_d1_position (longitude : ℚ) : Option ChartPosition := do
  let rashi := pyInt (longitude / 30) + 1
  let sign ← pyIndex SIGNS (rashi - 1)
  let lord ← dictGet RASHI_LORDS rashi
  pure ⟨"D1", rashi, sign, lord⟩

/-- get_d9_position of divisional.py. -/
def get_d9_position (longitude : ℚ) : Option ChartPosition := do
  let rashi := pyInt (longitude / 30) + 1
  let degree_in_sign := pymod longitude 30
  let navamsa_num := pyInt (degree_in_sign / (30 / 9))
  let start_sign : ℤ :=
    if rashi ∈ ([1, 5, 9] : List ℤ) then 1
    else if rashi ∈ ([2, 6, 10] : List ℤ) then 10
    else if rashi ∈ ([3, 7, 11] : List ℤ) then 7
    else 4
  let d9_rashi := (start_sign - 1 + navamsa_num) % 12 + 1
  let sign ← pyIndex SIGNS (d9_rashi - 1)
  let lord ← dictGet RASHI_LORDS d9_rashi
  pure ⟨"D9", d9_rashi, sign, lord⟩

/-- get_d10_position of divisional.py. -/
def get_d10_position (longitude : ℚ) : Option ChartPosition := do
  let rashi := pyInt (longitude / 30) + 1
  let degree_in_sign := pymod longitude 30
  let dasamsa_num := pyInt (degree_in_sign / 3)
  let start_sign : ℤ := if rashi % 2 = 1 then rashi else (rashi - 1 + 8) % 12 + 1
  let d10_rashi := (start_sign - 1 + dasamsa_num) % 12 + 1
  let sign ← pyIndex SIGNS (d10_rashi - 1)
  let lord ← dictGet RASHI_LORDS d10_rashi
  pure ⟨"D10", d10_rashi, sign, lord⟩

/-- get_d2_position of divisional.py. -/
def get_d2_position (longitude : ℚ) : Option ChartPosition := do
  let rashi := pyInt (longitude / 30) + 1
  let degree_in_sign := pymod longitude 30
  let hora_num : ℤ := if degree_in_sign < 15 then 0 else 1
  let d2_rashi : ℤ :=
    if rashi % 2 = 1 then (if hora_num = 0 then 5 else 4)
    else (if hora_num = 0 then 4 else 5)
  let sign ← pyIndex SIGNS (d2_rashi - 1)
  let lord ← dictGet RASHI_LORDS d2_rashi
  pure ⟨"D2", d2_rashi, sign, lord⟩

/-- get_d3_position of divisional.py. -/
def get_d3_position (longitude : ℚ) : Option ChartPosition := do
  let rashi := pyInt (longitude / 30) + 1
  let degree_in_sign := pymod longitude 30
  let drekkana_num := pyInt (degree_in_sign / 10)
  let d3_rashi : ℤ :=
    if drekkana_num = 0 then rashi
    else if drekkana_num = 1 then (rashi - 1 + 4) % 12 + 1
    else (rashi - 1 + 8) % 12 + 1
  let sign ← pyIndex SIGNS (d3_rashi - 1)
  let lord ← dictGet RASHI_LORDS d3_rashi
  pure ⟨"D3", d3_rashi, sign, lord⟩

/-- get_d7_position of divisional.py. -/
def get_d7_position (longitude : ℚ) : Option ChartPosition := do
  let rashi := pyInt (longitude / 30) + 1
  let degree_in_sign := pymod longitude 30
  let saptamsa_num := pyInt (degree_in_sign / (30 / 7))
  let start_sign : ℤ := if rashi % 2 = 1 then rashi else (rashi - 1 + 6) % 12 + 1
  let d7_rashi := (start_sign - 1 + saptamsa_num) % 12 + 1
  let sign ← pyIndex SIGNS (d7_rashi - 1)
  let lord ← dictGet RASHI_LORDS d7_rashi
  pure ⟨"D7", d7_rashi, sign, lord⟩

/-- get_d12_position of divisional.py. -/
def get_d12_position (longitude : ℚ) : Option ChartPosition := do
  let rashi := pyInt (longitude / 30) + 1
  let degree_in_sign := pymod longitude 30
  let dwadasamsa_num := pyInt (degree_in_sign / 2.5)
  let d12_rashi := (rashi - 1 + dwadasamsa_num) % 12 + 1
  let sign ← pyIndex SIGNS (d12_rashi - 1)
  let lord ← dictGet RASHI_LORDS d12_rashi
  pure ⟨"D12", d12_rashi, sign, lord⟩

end Divisional

/-! Supporting lemmas about the Python-semantics helpers. -/

theorem pymod_nonneg (a : ℚ) {m : ℚ} (hm : 0 < m) : 0 ≤ pymod a m := by
  unfold pymod
  have h2 : (⌊a / m⌋ : ℚ) ≤ a / m := Int.floor_le _
  have h3 : m * (⌊a / m⌋ : ℚ) ≤ m * (a / m) := mul_le_mul_of_nonneg_left h2 hm.le
  have h4 : m * (a / m) = a := by field_simp
  linarith

theorem pymod_lt (a : ℚ) {m : ℚ} (hm : 0 < m) : pymod a m < m := by
  unfold pymod
  have h : a / m < ⌊a / m⌋ + 1 := Int.lt_floor_add_one _
  have h3 : a < ((⌊a / m⌋ : ℚ) + 1) * m := (div_lt_iff₀ hm).mp h
  have h4 : ((⌊a / m⌋ : ℚ) + 1) * m = m * ⌊a / m⌋ + m := by ring
  linarith

theorem pymod_eq_self {a m : ℚ} (h0 : 0 ≤ a) (h1 : a < m) : pymod a m = a := by
  have hm : 0 < m := lt_of_le_of_lt h0 h1
  have hz : ⌊a / m⌋ = 0 := by
    rw [Int.floor_eq_zero_iff]
    refine Set.mem_Ico.mpr ⟨by positivity, (div_lt_one hm).mpr h1⟩
  unfold pymod
  rw [hz]
  push_cast
  ring

theorem pymod_eq_sub {a m : ℚ} (h0 : m ≤ a) (h1 : a < 2 * m) : pymod a m = a - m := by
  have hm : 0 < m := by nlinarith
  have hone : ⌊a / m⌋ = 1 := by
    have hlo : (1 : ℚ) ≤ a / m := (le_div_iff₀ hm).mpr (by linarith)
    have hhi : a / m < 2 := by rw [div_lt_iff₀ hm]; linarith
    have h1' : (1 : ℤ) ≤ ⌊a / m⌋ := Int.le_floor.mpr (by exact_mod_cast hlo)
    have h2' : ⌊a / m⌋ < 2 := Int.floor_lt.mpr (by exact_mod_cast hhi)
    omega
  unfold pymod
  rw [hone]
  push_cast
  ring

theorem pyInt_of_nonneg {q : ℚ} (h : 0 ≤ q) : pyInt q = ⌊q⌋ := if_pos h

theorem roundHalfEven_intCast (n : ℤ) : roundHalfEven (n : ℚ) = n := by
  unfold roundHalfEven
  rw [Int.fract_intCast, Int.floor_intCast]
  split
  · rfl
  · rename_i h
    exact absurd (by norm_num) h

theorem roundHalfEven_le {q : ℚ} {n : ℤ} (h : q < n + 1/2) : roundHalfEven q ≤ n := by
  unfold roundHalfEven
  rcases le_or_lt (⌊q⌋ : ℤ) (n - 1) with hf | hf
  · split
    · omega
    · split
      · omega
      · split <;> omega
  · have hn : n ≤ ⌊q⌋ := by omega
    have hq : (⌊q⌋ : ℚ) ≤ q := Int.floor_le q
    have hnq : (n : ℚ) ≤ ⌊q⌋ := by exact_mod_cast hn
    have hfr : Int.fract q < 1/2 := by
      unfold Int.fract
      linarith
    rw [if_pos hfr]
    have : (⌊q⌋ : ℚ) < n + 1/2 := by linarith
    have : ⌊q⌋ ≤ n := by
      by_contra hc
      push_neg at hc
      have : (n : ℚ) + 1 ≤ (⌊q⌋ : ℚ) := by exact_mod_cast hc
      linarith
    exact this

theorem roundHalfEven_ge {q : ℚ} {n : ℤ} (h : (n : ℚ) ≤ q) : n ≤ roundHalfEven q := by
  have hf : n ≤ ⌊q⌋ := Int.le_floor.mpr h
  unfold roundHalfEven
  split
  · omega
  · split
    · omega
    · split <;> omega

/-- Banker's rounding commutes with adding an even integer (parity of the
floor is preserved, so the tie-breaking branch is unchanged). -/
theorem roundHalfEven_add_two_mul (q : ℚ) (m : ℤ) :
    roundHalfEven (q + 2 * m) = roundHalfEven q + 2 * m := by
  have hcast : q + 2 * (m : ℚ) = q + ((2 * m : ℤ) : ℚ) := by push_cast; ring
  unfold roundHalfEven
  rw [hcast, Int.fract_add_int, Int.floor_add_int]
  have hpar : (⌊q⌋ + 2 * m) % 2 = ⌊q⌋ % 2 := by omega
  split
  · rfl
  · split
    · omega
    · rw [hpar]
      split <;> omega

/-- Closed form for the mean-node longitude: with k the representative of
-386*days modulo 2629800 (= 360*7305), rahu_lon = k/7305. -/
theorem rahu_lon_eq (d : ℤ) :
    Transits.rahu_lon d = (((-386 * d) % 2629800 : ℤ) : ℚ) / 7305 := by
  have harg : (0 : ℚ) - ((d : ℚ) / 365.25) * 19.3 = ((-386 * d : ℤ) : ℚ) / 7305 := by
    push_cast
    norm_num
    ring
  have hdiv : ((-386 * d : ℤ) : ℚ) / 7305 / 360 = ((-386 * d : ℤ) : ℚ) / ((2629800 : ℕ) : ℚ) := by
    push_cast
    ring
  have hfloor : ⌊((-386 * d : ℤ) : ℚ) / ((2629800 : ℕ) : ℚ)⌋ = (-386 * d) / (2629800 : ℤ) := by
    exact_mod_cast Rat.floor_intCast_div_natCast (-386 * d) 2629800
  have hdm := Int.ediv_add_emod (-386 * d) 2629800
  unfold Transits.rahu_lon pymod
  rw [harg, hdiv, hfloor]
  have hsub : ((-386 * d) % 2629800 : ℤ) = (-386 * d) - 2629800 * ((-386 * d) / 2629800) := by
    omega
  rw [hsub]
  push_cast
  ring

/-! Claim theorems. -/

/-- C1: for body and ascendant longitudes in [0,360), get_house_from_lon
equals floor(((body - asc) mod 360)/30) + 1 and lies in 1..12 (the code
truncates with int(), which coincides with floor on the nonnegative
quotient).  The particular case asc=95, body=200, house=4 is the witness. -/
theorem C1_house_assignment (p a : ℚ) (hp0 : 0 ≤ p) (hp1 : p < 360)
    (ha0 : 0 ≤ a) (ha1 : a < 360) :
    Yogas.get_house_from_lon p a = ⌊pymod (p - a) 360 / 30⌋ + 1 ∧
    1 ≤ Yogas.get_house_from_lon p a ∧ Yogas.get_house_from_lon p a ≤ 12 := by
  have h0 : (0 : ℚ) < 360 := by norm_num
  have hnn : 0 ≤ pymod (p - a) 360 := pymod_nonneg _ h0
  have hlt : pymod (p - a) 360 < 360 := pymod_lt _ h0
  have hq : 0 ≤ pymod (p - a) 360 / 30 := by positivity
  have heq : Yogas.get_house_from_lon p a = ⌊pymod (p - a) 360 / 30⌋ + 1 := by
    unfold Yogas.get_house_from_lon
    rw [pyInt_of_nonneg hq]
  refine ⟨heq, ?_, ?_⟩
  · rw [heq]
    have : (0 : ℤ) ≤ ⌊pymod (p - a) 360 / 30⌋ := Int.floor_nonneg.mpr hq
    omega
  · rw [heq]
    have : ⌊pymod (p - a) 360 / 30⌋ < 12 := by
      rw [Int.floor_lt]
      push_cast
      rw [div_lt_iff₀ (by norm_num : (0:ℚ) < 30)]
      linarith
    omega

/-- C1 witness: ascendant 95 and body 200 satisfy the hypotheses, and the
assigned house is 4. -/
theorem C1_house_assignment_witness :
    (Yogas.get_house_from_lon 200 95 = ⌊pymod (200 - 95 : ℚ) 360 / 30⌋ + 1 ∧
      1 ≤ Yogas.get_house_from_lon 200 95 ∧ Yogas.get_house_from_lon 200 95 ≤ 12) ∧
    Yogas.get_house_from_lon 200 95 = 4 :=
  ⟨C1_house_assignment 200 95 (by norm_num) (by norm_num) (by norm_num) (by norm_num),
   by norm_num [Yogas.get_house_from_lon, pymod, pyInt]⟩

/-- C2: at every evaluation instant (any integer day count since 2000-01-01),
the rounded Ketu longitude stored by get_current_transits equals the rounded
Rahu longitude plus 180 degrees modulo 360, and both lie in [0, 360). -/
theorem C2_ketu_rahu_invariant (d : ℤ) :
    Transits.transit_Ketu d = pymod (Transits.transit_Rahu d + 180) 360 ∧
    (0 ≤ Transits.transit_Rahu d ∧ Transits.transit_Rahu d < 360) ∧
    (0 ≤ Transits.transit_Ketu d ∧ Transits.transit_Ketu d < 360) := by
  set k : ℤ := (-386 * d) % 2629800 with hk
  have hk0 : 0 ≤ k := Int.emod_nonneg _ (by norm_num)
  have hk1 : k < 2629800 := Int.emod_lt_of_pos _ (by norm_num)
  have hkq0 : (0 : ℚ) ≤ (k : ℚ) := by exact_mod_cast hk0
  have hrahu : Transits.rahu_lon d = (k : ℚ) / 7305 := rahu_lon_eq d
  have hq : Transits.rahu_lon d * 10 ^ 4 = (k : ℚ) * 10000 / 7305 := by
    rw [hrahu]; ring
  have hargnn : (0 : ℚ) ≤ (k : ℚ) * 10000 / 7305 :=
    div_nonneg (mul_nonneg hkq0 (by norm_num)) (by norm_num)
  have hR0 : 0 ≤ roundHalfEven ((k : ℚ) * 10000 / 7305) :=
    roundHalfEven_ge (by exact_mod_cast hargnn)
  set R : ℤ := roundHalfEven ((k : ℚ) * 10000 / 7305) with hR
  have htR : Transits.transit_Rahu d = (R : ℚ) / 10 ^ 4 := by
    unfold Transits.transit_Rahu pyRound
    rw [hq]
  have hRq0 : (0 : ℚ) ≤ (R : ℚ) := by exact_mod_cast hR0
  have htR_nn : 0 ≤ Transits.transit_Rahu d := by
    rw [htR]; positivity
  have hr0 : 0 ≤ Transits.rahu_lon d := by
    unfold Transits.rahu_lon; exact pymod_nonneg _ (by norm_num)
  rcases lt_or_le k 1314900 with hcase | hcase
  · -- Rahu in [0, 180): Ketu = Rahu + 180 with no wrap.
    have hk899 : k ≤ 1314899 := by omega
    have hkq : (k : ℚ) ≤ 1314899 := by exact_mod_cast hk899
    have hRle : R ≤ 1799999 := by
      apply roundHalfEven_le
      rw [div_lt_iff₀ (by norm_num : (0:ℚ) < 7305)]
      push_cast
      nlinarith
    have hrahu_lt : Transits.rahu_lon d < 180 := by
      rw [hrahu, div_lt_iff₀ (by norm_num : (0:ℚ) < 7305)]
      nlinarith
    have hketu : Transits.ketu_lon d = Transits.rahu_lon d + 180 := by
      unfold Transits.ketu_lon
      exact pymod_eq_self (by linarith) (by linarith)
    have hketu_q : Transits.ketu_lon d * 10 ^ 4 =
        (k : ℚ) * 10000 / 7305 + 2 * ((900000 : ℤ) : ℚ) := by
      rw [hketu, hrahu]; push_cast; ring
    have hround : roundHalfEven (Transits.ketu_lon d * 10 ^ 4) = R + 1800000 := by
      rw [hketu_q, roundHalfEven_add_two_mul]
      rw [hR]; ring
    have htK : Transits.transit_Ketu d = (R : ℚ) / 10 ^ 4 + 180 := by
      unfold Transits.transit_Ketu pyRound
      rw [hround]
      push_cast
      ring
    have hRqle : (R : ℚ) ≤ 1799999 := by exact_mod_cast hRle
    have htR_lt : Transits.transit_Rahu d < 180 := by
      rw [htR, div_lt_iff₀ (by norm_num : (0:ℚ) < 10 ^ 4)]
      linarith
    have hmod : pymod (Transits.transit_Rahu d + 180) 360 =
        Transits.transit_Rahu d + 180 :=
      pymod_eq_self (by linarith) (by linarith)
    refine ⟨by rw [htK, hmod, htR], ⟨htR_nn, by linarith⟩, ⟨?_, ?_⟩⟩
    · rw [htK]; positivity
    · rw [htK, htR] at *
      linarith
  · -- Rahu in [180, 360): Ketu = Rahu - 180 after the wrap.
    have hkq : (1314900 : ℚ) ≤ (k : ℚ) := by exact_mod_cast hcase
    have hkq1 : (k : ℚ) ≤ 2629799 := by exact_mod_cast (by omega : k ≤ 2629799)
    have hRge : 1800000 ≤ R := by
      apply roundHalfEven_ge
      rw [le_div_iff₀ (by norm_num : (0:ℚ) < 7305)]
      push_cast
      nlinarith
    have hRle : R ≤ 3599999 := by
      apply roundHalfEven_le
      rw [div_lt_iff₀ (by norm_num : (0:ℚ) < 7305)]
      push_cast
      nlinarith
    have hrahu_ge : (180 : ℚ) ≤ Transits.rahu_lon d := by
      rw [hrahu, le_div_iff₀ (by norm_num : (0:ℚ) < 7305)]
      nlinarith
    have hrahu_lt : Transits.rahu_lon d < 360 := by
      rw [hrahu, div_lt_iff₀ (by norm_num : (0:ℚ) < 7305)]
      nlinarith
    have hketu : Transits.ketu_lon d = Transits.rahu_lon d - 180 := by
      unfold Transits.ketu_lon
      have := pymod_eq_sub (a := Transits.rahu_lon d + 180) (m := 360)
        (by linarith) (by linarith)
      linarith [this]
    have hketu_q : Transits.ketu_lon d * 10 ^ 4 =
        (k : ℚ) * 10000 / 7305 + 2 * ((-900000 : ℤ) : ℚ) := by
      rw [hketu, hrahu]; push_cast; ring
    have hround : roundHalfEven (Transits.ketu_lon d * 10 ^ 4) = R - 1800000 := by
      rw [hketu_q, roundHalfEven_add_two_mul]
      rw [hR]; ring
    have htK : Transits.transit_Ketu d = (R : ℚ) / 10 ^ 4 - 180 := by
      unfold Transits.transit_Ketu pyRound
      rw [hround]
      push_cast
      ring
    have hRqge : (1800000 : ℚ) ≤ (R : ℚ) := by exact_mod_cast hRge
    have hRqle : (R : ℚ) ≤ 3599999 := by exact_mod_cast hRle
    have htR_ge : (180 : ℚ) ≤ Transits.transit_Rahu d := by
      rw [htR, le_div_iff₀ (by norm_num : (0:ℚ) < 10 ^ 4)]
      linarith
    have htR_lt : Transits.transit_Rahu d < 360 := by
      rw [htR, div_lt_iff₀ (by norm_num : (0:ℚ) < 10 ^ 4)]
      linarith
    have hmod : pymod (Transits.transit_Rahu d + 180) 360 =
        Transits.transit_Rahu d - 180 := by
      have := pymod_eq_sub (a := Transits.transit_Rahu d + 180) (m := 360)
        (by linarith) (by linarith)
      linarith [this]
    refine ⟨by rw [htK, hmod, htR], ⟨htR_nn, htR_lt⟩, ⟨?_, ?_⟩⟩
    · rw [htK, htR] at *
      linarith
    · rw [htK]
      have : (R : ℚ) / 10 ^ 4 < 360 := by
        rw [div_lt_iff₀ (by norm_num : (0:ℚ) < 10 ^ 4)]
        linarith
      linarith

/-- C7 counterexample: a separation of 95 degrees does NOT return none --
it is within the square's 6-degree orb (deviation 5), contradicting the
claim's final clause. -/
theorem C7_aspect_95_counterexample : Transits.calculate_aspect 95 0 ≠ none := by
  have h : Transits.calculate_aspect 95 0 =
      some ⟨"square", 90, 95, 5, 17/100, "challenging"⟩ := by
    norm_num [Transits.calculate_aspect, Transits.ASPECTS, Transits.find_aspect,
      pyRound, roundHalfEven, Int.fract]
  rw [h]
  exact Option.some_ne_none _

/-- C7 amended: separation 0 gives a conjunction with exactness 1.0 and
separation 90 gives a square with exactness 1.0, as claimed; but separation
95 matches the square aspect (deviation 5 within the 6-degree orb) with
exactness round(1 - 5/6, 2) = 0.17, rather than matching nothing. -/
theorem C7_aspect_classification_amended :
    Transits.calculate_aspect 0 0 =
      some ⟨"conjunction", 0, 0, 0, 1, "intense"⟩ ∧
    Transits.calculate_aspect 90 0 =
      some ⟨"square", 90, 90, 0, 1, "challenging"⟩ ∧
    Transits.calculate_aspect 95 0 =
      some ⟨"square", 90, 95, 5, 17/100, "challenging"⟩ := by
  refine ⟨?_, ?_, ?_⟩ <;>
    norm_num [Transits.calculate_aspect, Transits.ASPECTS, Transits.find_aspect,
      pyRound, roundHalfEven, Int.fract]

/-- pyIndex with a nonnegative index is plain list lookup. -/
theorem pyIndex_of_nonneg {α : Type} (l : List α) {i : ℤ} (h : 0 ≤ i) :
    pyIndex l i = l.get? i.toNat := if_pos h

/-- C4: for a Moon sidereal longitude in [0,360), the dasha engine locates
the birth nakshatra as floor(longitude/(360/27)) (int() truncation agrees
with floor on the nonnegative quotient), the 27-entry lordship table is the
9-body sequence repeated cyclically, the first lord is read off that table
at the birth nakshatra, and the remaining duration of the first (partial)
Mahadasha is (1 - progress-in-nakshatra) times that lord's full years. -/
theorem C4_first_mahadasha (moon : ℚ) (h0 : 0 ≤ moon) (h1 : moon < 360) :
    Dasha.nakshatra_num moon = ⌊moon / (360 / 27)⌋ ∧
    (∀ n : ℕ, n < 27 →
      Dasha.NAKSHATRA_LORDS.get? n = Dasha.DASHA_SEQUENCE.get? (n % 9)) ∧
    ∃ lord, Dasha.first_dasha_lord moon = some lord ∧
      Dasha.NAKSHATRA_LORDS.get? (Dasha.nakshatra_num moon).toNat = some lord ∧
      Dasha.remaining_years moon =
        some ((1 - Dasha.progress_in_nakshatra moon) * Dasha.dasha_years lord) := by
  have hq : 0 ≤ moon / (360 / 27) := by positivity
  have hnum : Dasha.nakshatra_num moon = ⌊moon / (360 / 27)⌋ := by
    unfold Dasha.nakshatra_num
    exact pyInt_of_nonneg hq
  have hfl0 : 0 ≤ ⌊moon / (360 / 27)⌋ := Int.floor_nonneg.mpr hq
  have hfl27 : ⌊moon / (360 / 27)⌋ < 27 := by
    rw [Int.floor_lt]
    push_cast
    rw [div_lt_iff₀ (by norm_num : (0:ℚ) < 360 / 27)]
    linarith
  refine ⟨hnum, ?_, ?_⟩
  · intro n hn
    interval_cases n <;> rfl
  · have hlen : (Dasha.nakshatra_num moon).toNat < Dasha.NAKSHATRA_LORDS.length := by
      rw [hnum]
      have : Dasha.NAKSHATRA_LORDS.length = 27 := rfl
      omega
    obtain ⟨lord, hlord⟩ : ∃ l, Dasha.NAKSHATRA_LORDS.get?
        (Dasha.nakshatra_num moon).toNat = some l :=
      ⟨_, List.get?_eq_get hlen⟩
    have hfirst : Dasha.first_dasha_lord moon = some lord := by
      unfold Dasha.first_dasha_lord
      rw [pyIndex_of_nonneg _ (by rw [hnum]; exact hfl0)]
      exact hlord
    refine ⟨lord, hfirst, hlord, ?_⟩
    unfold Dasha.remaining_years
    rw [hfirst]
    simp only [Option.map_some']
    congr 1
    ring

/-- C4 witness: Moon longitude 10 is in range; it falls in nakshatra 0
(Ashwini), the first Mahadasha lord is Ketu, and the remaining duration is
(1 - 0.75) * 7 = 1.75 years. -/
theorem C4_first_mahadasha_witness :
    (∃ lord, Dasha.first_dasha_lord 10 = some lord ∧
      Dasha.NAKSHATRA_LORDS.get? (Dasha.nakshatra_num 10).toNat = some lord ∧
      Dasha.remaining_years 10 =
        some ((1 - Dasha.progress_in_nakshatra 10) * Dasha.dasha_years lord)) ∧
    Dasha.nakshatra_name 10 = some "Ashwini" ∧
    Dasha.first_dasha_lord 10 = some "Ketu" ∧
    Dasha.remaining_years 10 = some (7/4) := by
  refine ⟨(C4_first_mahadasha 10 (by norm_num) (by norm_num)).2.2, ?_, ?_, ?_⟩ <;>
    norm_num [Dasha.nakshatra_name, Dasha.first_dasha_lord, Dasha.remaining_years,
      Dasha.nakshatra_num, Dasha.progress_in_nakshatra, Dasha.dasha_years,
      Dasha.NAKSHATRA_NAMES, Dasha.NAKSHATRA_LORDS, Dasha.DASHA_YEARS,
      dictGet, pyIndex, pyInt, pymod]

/-- Helper for C3: for any lord in the sequence, the nine antardasha spans
sum exactly to the floored day count of the Mahadasha interval (the nine
proportions y/120 sum to 1). -/
theorem antardashas_sum (lord : String) (s e : ℚ)
    (h : lord ∈ Dasha.DASHA_SEQUENCE) :
    ((Dasha.calculate_antardashas lord s e).map
      (fun x => x.end_date - x.start_date)).sum = (⌊e - s⌋ : ℚ) := by
  simp only [Dasha.DASHA_SEQUENCE, List.mem_cons, List.not_mem_nil, or_false] at h
  rcases h with rfl|rfl|rfl|rfl|rfl|rfl|rfl|rfl|rfl <;>
  · simp [Dasha.calculate_antardashas, Dasha.antardasha_loop, Dasha.dasha_years,
      Dasha.DASHA_YEARS, Dasha.TOTAL_DASHA_YEARS, Dasha.DASHA_SEQUENCE, dictGet]
    ring

/-- C3: for every Mahadasha lord (a member of the nine-body sequence) and
any start/end dates, calculate_antardashas returns exactly 9 antardashas;
the first is ruled by the Mahadasha's own lord and the j-th by the sequence
entry (index(lord)+j) mod 9; consecutive sub-periods are contiguous; and
the sub-period spans sum to the floored day count of the Mahadasha, which
is within 1 day of the exact Mahadasha duration. -/
theorem C3_antardashas (lord : String) (s e : ℚ)
    (h : lord ∈ Dasha.DASHA_SEQUENCE) :
    (Dasha.calculate_antardashas lord s e).length = 9 ∧
    (Dasha.calculate_antardashas lord s e).head?.map Dasha.Antardasha.planet =
      some lord ∧
    (∀ j : ℕ, j < 9 →
      ((Dasha.calculate_antardashas lord s e).get? j).map Dasha.Antardasha.planet =
        Dasha.DASHA_SEQUENCE.get? ((Dasha.DASHA_SEQUENCE.indexOf lord + j) % 9)) ∧
    List.Chain' (fun x y => y.start_date = x.end_date)
      (Dasha.calculate_antardashas lord s e) ∧
    ((Dasha.calculate_antardashas lord s e).map
      (fun x => x.end_date - x.start_date)).sum = (⌊e - s⌋ : ℚ) ∧
    |((Dasha.calculate_antardashas lord s e).map
      (fun x => x.end_date - x.start_date)).sum - (e - s)| < 1 := by
  have hsum := antardashas_sum lord s e h
  have hfl1 : (⌊e - s⌋ : ℚ) ≤ e - s := Int.floor_le _
  have hfl2 : e - s < ⌊e - s⌋ + 1 := Int.lt_floor_add_one _
  have habs : |((Dasha.calculate_antardashas lord s e).map
      (fun x => x.end_date - x.start_date)).sum - (e - s)| < 1 := by
    rw [hsum, abs_lt]
    constructor <;> linarith
  simp only [Dasha.DASHA_SEQUENCE, List.mem_cons, List.not_mem_nil, or_false] at h
  rcases h with rfl|rfl|rfl|rfl|rfl|rfl|rfl|rfl|rfl <;>
  · exact ⟨rfl, rfl, fun j hj => by interval_cases j <;> rfl,
      by simp [Dasha.calculate_antardashas, Dasha.antardasha_loop, List.chain'_cons],
      hsum, habs⟩

/-- C3 witness: the Venus Mahadasha over a concrete 7305-day interval. -/
theorem C3_antardashas_witness :
    (Dasha.calculate_antardashas "Venus" 0 7305).length = 9 ∧
    (Dasha.calculate_antardashas "Venus" 0 7305).head?.map Dasha.Antardasha.planet =
      some "Venus" ∧
    (∀ j : ℕ, j < 9 →
      ((Dasha.calculate_antardashas "Venus" 0 7305).get? j).map Dasha.Antardasha.planet =
        Dasha.DASHA_SEQUENCE.get? ((Dasha.DASHA_SEQUENCE.indexOf "Venus" + j) % 9)) ∧
    List.Chain' (fun x y => y.start_date = x.end_date)
      (Dasha.calculate_antardashas "Venus" 0 7305) ∧
    ((Dasha.calculate_antardashas "Venus" 0 7305).map
      (fun x => x.end_date - x.start_date)).sum = (⌊(7305 : ℚ) - 0⌋ : ℚ) ∧
    |((Dasha.calculate_antardashas "Venus" 0 7305).map
      (fun x => x.end_date - x.start_date)).sum - ((7305 : ℚ) - 0)| < 1 :=
  C3_antardashas "Venus" 0 7305 (by decide)

/-- pyIndex succeeds on an in-range nonnegative index. -/
theorem pyIndex_isSome {α : Type} (l : List α) {i : ℤ} (h0 : 0 ≤ i)
    (h1 : i < (l.length : ℤ)) : ∃ x, pyIndex l i = some x := by
  rw [pyIndex_of_nonneg l h0]
  refine ⟨_, List.get?_eq_get ?_⟩
  omega

/-- The nakshatra list index int(moon/(360/27)) is in [0, 27) for a
longitude in [0, 360). -/
theorem nak_idx_bounds (moon : ℚ) (h0 : 0 ≤ moon) (h1 : moon < 360) :
    0 ≤ pyInt (moon / (360 / 27)) ∧ pyInt (moon / (360 / 27)) < 27 := by
  have hq : 0 ≤ moon / (360 / 27) := by positivity
  rw [pyInt_of_nonneg hq]
  refine ⟨Int.floor_nonneg.mpr hq, ?_⟩
  rw [Int.floor_lt]
  push_cast
  rw [div_lt_iff₀ (by norm_num : (0:ℚ) < 360 / 27)]
  linarith

/-- The rashi list index int(moon/30) is in [0, 12) for a longitude in
[0, 360). -/
theorem rashi_idx_bounds (moon : ℚ) (h0 : 0 ≤ moon) (h1 : moon < 360) :
    0 ≤ pyInt (moon / 30) ∧ pyInt (moon / 30) < 12 := by
  have hq : 0 ≤ moon / 30 := by positivity
  rw [pyInt_of_nonneg hq]
  refine ⟨Int.floor_nonneg.mpr hq, ?_⟩
  rw [Int.floor_lt]
  push_cast
  rw [div_lt_iff₀ (by norm_num : (0:ℚ) < 30)]
  linarith

theorem varna_bounds (b g : String) :
    0 ≤ Matching.calculate_varna b g ∧ Matching.calculate_varna b g ≤ 1 := by
  simp only [Matching.calculate_varna]
  split_ifs <;> norm_num

theorem vashya_bounds (b g : String) :
    0 ≤ Matching.calculate_vashya b g ∧ Matching.calculate_vashya b g ≤ 2 := by
  simp only [Matching.calculate_vashya]
  split_ifs <;> norm_num

theorem tara_bounds (bn gn : ℤ) :
    0 ≤ Matching.calculate_tara bn gn ∧ Matching.calculate_tara bn gn ≤ 3 := by
  simp only [Matching.calculate_tara]
  split_ifs <;> norm_num

theorem graha_maitri_bounds (b g : String) :
    0 ≤ Matching.calculate_graha_maitri b g ∧
      Matching.calculate_graha_maitri b g ≤ 5 := by
  simp only [Matching.calculate_graha_maitri]
  split_ifs <;> norm_num

theorem bhakoot_bounds (bn gn : ℤ) :
    0 ≤ Matching.calculate_bhakoot bn gn ∧ Matching.calculate_bhakoot bn gn ≤ 7 := by
  simp only [Matching.calculate_bhakoot]
  split_ifs <;> norm_num

theorem yoni_some_bounds {bn gn : ℤ} (hb0 : 0 ≤ bn - 1) (hb1 : bn - 1 < 27)
    (hg0 : 0 ≤ gn - 1) (hg1 : gn - 1 < 27) :
    ∃ s, Matching.calculate_yoni bn gn = some s ∧ 0 ≤ s ∧ s ≤ 4 := by
  obtain ⟨x, hx⟩ := pyIndex_isSome Matching.NAKSHATRA_YONI hb0
    (by simpa [Matching.NAKSHATRA_YONI] using hb1)
  obtain ⟨y, hy⟩ := pyIndex_isSome Matching.NAKSHATRA_YONI hg0
    (by simpa [Matching.NAKSHATRA_YONI] using hg1)
  unfold Matching.calculate_yoni
  rw [hx, hy]
  simp only [Option.bind_eq_bind, Option.some_bind]
  split_ifs <;> exact ⟨_, rfl, by norm_num⟩

theorem gana_some_bounds {bn gn : ℤ} (hb0 : 0 ≤ bn - 1) (hb1 : bn - 1 < 27)
    (hg0 : 0 ≤ gn - 1) (hg1 : gn - 1 < 27) :
    ∃ s, Matching.calculate_gana bn gn = some s ∧ 0 ≤ s ∧ s ≤ 6 := by
  obtain ⟨x, hx⟩ := pyIndex_isSome Matching.NAKSHATRA_GANA hb0
    (by simpa [Matching.NAKSHATRA_GANA] using hb1)
  obtain ⟨y, hy⟩ := pyIndex_isSome Matching.NAKSHATRA_GANA hg0
    (by simpa [Matching.NAKSHATRA_GANA] using hg1)
  unfold Matching.calculate_gana
  rw [hx, hy]
  simp only [Option.bind_eq_bind, Option.some_bind]
  split_ifs <;> exact ⟨_, rfl, by norm_num⟩

theorem nadi_some_bounds {bn gn : ℤ} (hb0 : 0 ≤ bn - 1) (hb1 : bn - 1 < 27)
    (hg0 : 0 ≤ gn - 1) (hg1 : gn - 1 < 27) :
    ∃ s, Matching.calculate_nadi bn gn = some s ∧ 0 ≤ s ∧ s ≤ 8 := by
  obtain ⟨x, hx⟩ := pyIndex_isSome Matching.NAKSHATRA_NADI hb0
    (by simpa [Matching.NAKSHATRA_NADI] using hb1)
  obtain ⟨y, hy⟩ := pyIndex_isSome Matching.NAKSHATRA_NADI hg0
    (by simpa [Matching.NAKSHATRA_NADI] using hg1)
  unfold Matching.calculate_nadi
  rw [hx, hy]
  simp only [Option.bind_eq_bind, Option.some_bind]
  split_ifs <;> exact ⟨_, rfl, by norm_num⟩

theorem nadi_same {n : ℤ} (h0 : 0 ≤ n - 1) (h1 : n - 1 < 27) :
    Matching.calculate_nadi n n = some 0 := by
  obtain ⟨x, hx⟩ := pyIndex_isSome Matching.NAKSHATRA_NADI h0
    (by simpa [Matching.NAKSHATRA_NADI] using h1)
  unfold Matching.calculate_nadi
  rw [hx]
  simp only [Option.bind_eq_bind, Option.some_bind]
  simp

theorem yoni_same {n : ℤ} (h0 : 0 ≤ n - 1) (h1 : n - 1 < 27) :
    Matching.calculate_yoni n n = some 4 := by
  obtain ⟨x, hx⟩ := pyIndex_isSome Matching.NAKSHATRA_YONI h0
    (by simpa [Matching.NAKSHATRA_YONI] using h1)
  unfold Matching.calculate_yoni
  rw [hx]
  simp only [Option.bind_eq_bind, Option.some_bind]
  simp

/-- C5: for bride/groom Moon longitudes in [0,360) the Ashtakoot total
score exists (no lookup fails) and lies in [0,36]; and for identical Moon
longitudes the Nadi koot scores 0 (same Nadi, dosha) while the Yoni koot
scores its maximum 4 (identical nakshatra). -/
theorem C5_ashtakoot (b g : ℚ) (hb0 : 0 ≤ b) (hb1 : b < 360)
    (hg0 : 0 ≤ g) (hg1 : g < 360) :
    (∃ t, Matching.total_score b g = some t ∧ 0 ≤ t ∧ t ≤ 36) ∧
    (b = g →
      Matching.calculate_nadi (Matching.nakshatra_number b)
        (Matching.nakshatra_number g) = some 0 ∧
      Matching.calculate_yoni (Matching.nakshatra_number b)
        (Matching.nakshatra_number g) = some 4) := by
  obtain ⟨hbi0, hbi27⟩ := nak_idx_bounds b hb0 hb1
  obtain ⟨hgi0, hgi27⟩ := nak_idx_bounds g hg0 hg1
  obtain ⟨hbr0, hbr12⟩ := rashi_idx_bounds b hb0 hb1
  obtain ⟨hgr0, hgr12⟩ := rashi_idx_bounds g hg0 hg1
  have hbn1 : Matching.nakshatra_number b - 1 = pyInt (b / (360 / 27)) := by
    unfold Matching.nakshatra_number; ring
  have hgn1 : Matching.nakshatra_number g - 1 = pyInt (g / (360 / 27)) := by
    unfold Matching.nakshatra_number; ring
  have hb0' : 0 ≤ Matching.nakshatra_number b - 1 := by rw [hbn1]; exact hbi0
  have hb1' : Matching.nakshatra_number b - 1 < 27 := by rw [hbn1]; exact hbi27
  have hg0' : 0 ≤ Matching.nakshatra_number g - 1 := by rw [hgn1]; exact hgi0
  have hg1' : Matching.nakshatra_number g - 1 < 27 := by rw [hgn1]; exact hgi27
  constructor
  · obtain ⟨nb, hnb⟩ := pyIndex_isSome Matching.NAKSHATRAS hbi0
      (by simpa [Matching.NAKSHATRAS] using hbi27)
    obtain ⟨ng, hng⟩ := pyIndex_isSome Matching.NAKSHATRAS hgi0
      (by simpa [Matching.NAKSHATRAS] using hgi27)
    obtain ⟨rb, hrb⟩ := pyIndex_isSome Matching.RASHIS hbr0
      (by simpa [Matching.RASHIS] using hbr12)
    obtain ⟨rg, hrg⟩ := pyIndex_isSome Matching.RASHIS hgr0
      (by simpa [Matching.RASHIS] using hgr12)
    obtain ⟨sy, hsy, hsy0, hsy4⟩ := yoni_some_bounds hb0' hb1' hg0' hg1'
    obtain ⟨sga, hsga, hsga0, hsga6⟩ := gana_some_bounds hb0' hb1' hg0' hg1'
    obtain ⟨sna, hsna, hsna0, hsna8⟩ := nadi_some_bounds hb0' hb1' hg0' hg1'
    have hv := varna_bounds rb rg
    have hva := vashya_bounds rb rg
    have ht := tara_bounds (Matching.nakshatra_number b) (Matching.nakshatra_number g)
    have hgm := graha_maitri_bounds rb rg
    have hbh := bhakoot_bounds (Matching.rashi_number b) (Matching.rashi_number g)
    refine ⟨Matching.calculate_varna rb rg + Matching.calculate_vashya rb rg +
      Matching.calculate_tara (Matching.nakshatra_number b)
        (Matching.nakshatra_number g) + sy +
      Matching.calculate_graha_maitri rb rg + sga +
      Matching.calculate_bhakoot (Matching.rashi_number b)
        (Matching.rashi_number g) + sna, ?_, ?_, ?_⟩
    · unfold Matching.total_score Matching.nakshatra_name Matching.rashi_name
      rw [hnb, hng, hrb, hrg]
      simp only [Option.bind_eq_bind, Option.some_bind]
      rw [hsy, hsga, hsna]
      simp only [Option.bind_eq_bind, Option.some_bind]
      rfl
    · linarith [hv.1, hva.1, ht.1, hsy0, hgm.1, hsga0, hbh.1, hsna0]
    · linarith [hv.2, hva.2, ht.2, hsy4, hgm.2, hsga6, hbh.2, hsna8]
  · intro hbg
    subst hbg
    exact ⟨nadi_same hb0' hb1', yoni_same hb0' hb1'⟩

/-- C5 witness: identical longitudes 10 and 10 are in range; the total
exists within [0,36], the Nadi koot scores 0 and the Yoni koot scores 4. -/
theorem C5_ashtakoot_witness :
    (∃ t, Matching.total_score 10 10 = some t ∧ 0 ≤ t ∧ t ≤ 36) ∧
    (Matching.calculate_nadi (Matching.nakshatra_number 10)
        (Matching.nakshatra_number 10) = some 0 ∧
      Matching.calculate_yoni (Matching.nakshatra_number 10)
        (Matching.nakshatra_number 10) = some 4) := by
  have h := C5_ashtakoot 10 10 (by norm_num) (by norm_num) (by norm_num) (by norm_num)
  exact ⟨h.1, h.2 rfl⟩

/-- C6: the verdict is determined from the total score by inclusive
lower-bound thresholds tested in descending order: total >= 25 gives
Excellent, else total >= 18 gives Good, else total >= 12 gives Average,
else Below Average. -/
theorem C6_verdict (b g t : ℚ) (h : Matching.total_score b g = some t) :
    (25 ≤ t → Matching.compat_verdict b g = some "Excellent Match") ∧
    (18 ≤ t → t < 25 → Matching.compat_verdict b g = some "Good Match") ∧
    (12 ≤ t → t < 18 → Matching.compat_verdict b g = some "Average Match") ∧
    (t < 12 → Matching.compat_verdict b g = some "Below Average Match") := by
  unfold Matching.compat_verdict
  rw [h]
  simp only [Option.map_some']
  unfold Matching.verdict_of
  refine ⟨?_, ?_, ?_, ?_⟩ <;> intros <;> split_ifs <;> first | rfl | linarith

/-- C6 witness: two Moons both at longitude 0 score a total of 28, which
meets the top threshold, so the verdict is the Excellent one. -/
theorem C6_verdict_witness : Matching.compat_verdict 0 0 = some "Excellent Match" := by
  have h : Matching.total_score 0 0 = some 28 := by
    norm_num [Matching.total_score, Matching.nakshatra_name, Matching.rashi_name,
      Matching.nakshatra_number, Matching.rashi_number, Matching.NAKSHATRAS,
      Matching.RASHIS, Matching.calculate_varna, Matching.calculate_vashya,
      Matching.calculate_tara, Matching.calculate_yoni, Matching.calculate_graha_maitri,
      Matching.calculate_gana, Matching.calculate_bhakoot, Matching.calculate_nadi,
      Matching.RASHI_VARNA, Matching.VASHYA_CATEGORIES, Matching.NAKSHATRA_YONI,
      Matching.YONI_ENEMIES, Matching.NAKSHATRA_GANA, Matching.NAKSHATRA_NADI,
      Matching.RASHI_LORDS, Matching.PLANET_FRIENDS, Matching.PLANET_ENEMIES,
      pyIndex, pyInt, dictGet, Option.bind_eq_bind]
  exact (C6_verdict 0 0 28 h).1 (by norm_num)

/-- C9: in calculate_vashya, equal rashi names trivially have equal Vashya
categories (the category is a function of the name, and every valid rashi
name is covered by the table), so the separate same-rashi branch can never
fire; and the score is always 1 or 2, never 0. -/
theorem C9_vashya_dead_branch (b g : String)
    (hb : b ∈ Matching.RASHIS) (hg : g ∈ Matching.RASHIS) :
    (b = g →
      (dictGet Matching.VASHYA_CATEGORIES b).getD "Manava" =
        (dictGet Matching.VASHYA_CATEGORIES g).getD "Manava") ∧
    (Matching.calculate_vashya b g = 1 ∨ Matching.calculate_vashya b g = 2) := by
  refine ⟨fun hbg => by rw [hbg], ?_⟩
  simp only [Matching.calculate_vashya]
  split_ifs <;> norm_num

/-- C9 witness: the Aries/Aries pair. -/
theorem C9_vashya_dead_branch_witness :
    ((("Aries" : String) = "Aries" →
      (dictGet Matching.VASHYA_CATEGORIES "Aries").getD "Manava" =
        (dictGet Matching.VASHYA_CATEGORIES "Aries").getD "Manava") ∧
    (Matching.calculate_vashya "Aries" "Aries" = 1 ∨
      Matching.calculate_vashya "Aries" "Aries" = 2)) :=
  C9_vashya_dead_branch "Aries" "Aries" (by simp [Matching.RASHIS])
    (by simp [Matching.RASHIS])

/-- pyIndex fails on an index at or past the end of the list. -/
theorem pyIndex_none_of_ge {α : Type} (l : List α) {i : ℤ} (h0 : 0 ≤ i)
    (h : (l.length : ℤ) ≤ i) : pyIndex l i = none := by
  rw [pyIndex_of_nonneg l h0]
  apply List.get?_eq_none.mpr
  omega

/-- The SIGNS table has an entry for every rashi 1..12. -/
theorem SIGNS_some {k : ℤ} (h1 : 1 ≤ k) (h2 : k ≤ 12) :
    ∃ s, pyIndex Divisional.SIGNS (k - 1) = some s :=
  pyIndex_isSome _ (by omega) (by simp [Divisional.SIGNS]; omega)

/-- The integer-keyed RASHI_LORDS dict has an entry for every rashi 1..12. -/
theorem LORDS_some {k : ℤ} (h1 : 1 ≤ k) (h2 : k ≤ 12) :
    ∃ s, dictGet Divisional.RASHI_LORDS k = some s := by
  interval_cases k <;> exact ⟨_, rfl⟩

/-- Any divisional position whose derived rashi is in 1..12 resolves both
table lookups and succeeds. -/
theorem chart_isSome_of_bounds (c : String) (r : ℤ) (h1 : 1 ≤ r) (h2 : r ≤ 12) :
    (do
      let sign ← pyIndex Divisional.SIGNS (r - 1)
      let lord ← dictGet Divisional.RASHI_LORDS r
      pure (⟨c, r, sign, lord⟩ : Divisional.ChartPosition) : Option _).isSome := by
  obtain ⟨s, hs⟩ := SIGNS_some h1 h2
  obtain ⟨l, hl⟩ := LORDS_some h1 h2
  rw [hs]
  simp only [Option.bind_eq_bind, Option.some_bind]
  rw [hl]
  simp

/-- C8 counterexample: the divisional chart functions do not reject
out-of-range longitudes as the claim states.  get_d1_position(-5) succeeds
(int() truncation toward zero puts -5 in rashi 1, Aries), and
get_d2_position(365) succeeds as well (its derived rashi is always 4 or 5). -/
theorem C8_range_rejection_counterexample :
    Divisional.get_d1_position (-5) = some ⟨"D1", 1, "Aries", "Mars"⟩ ∧
    (Divisional.get_d2_position 365).isSome := by
  constructor <;>
    norm_num [Divisional.get_d1_position, Divisional.get_d2_position,
      Divisional.SIGNS, Divisional.RASHI_LORDS, pyIndex, pyInt, pymod, dictGet,
      Option.bind_eq_bind]

/-- C8 amended: on [0,360) every divisional chart function succeeds (and,
being a Lean function of the longitude alone, is pure); but there is no
explicit range validation: only D1 reliably fails for longitudes >= 360
(rashi 13 overruns the SIGNS list), while negative longitudes and, for the
other charts, longitudes >= 360 are not rejected in general (see the
counterexample). -/
theorem C8_divisional_range_amended (lon : ℚ) :
    (0 ≤ lon → lon < 360 →
      (Divisional.get_d1_position lon).isSome ∧
      (Divisional.get_d2_position lon).isSome ∧
      (Divisional.get_d3_position lon).isSome ∧
      (Divisional.get_d7_position lon).isSome ∧
      (Divisional.get_d9_position lon).isSome ∧
      (Divisional.get_d10_position lon).isSome ∧
      (Divisional.get_d12_position lon).isSome) ∧
    (360 ≤ lon → Divisional.get_d1_position lon = none) := by
  constructor
  · intro h0 h1
    obtain ⟨hr0, hr12⟩ := rashi_idx_bounds lon h0 h1
    exact ⟨chart_isSome_of_bounds "D1" _ (by omega) (by omega),
      chart_isSome_of_bounds "D2" _ (by split_ifs <;> omega)
        (by split_ifs <;> omega),
      chart_isSome_of_bounds "D3" _ (by split_ifs <;> omega)
        (by split_ifs <;> omega),
      chart_isSome_of_bounds "D7" _ (by split_ifs <;> omega)
        (by split_ifs <;> omega),
      chart_isSome_of_bounds "D9" _ (by split_ifs <;> omega)
        (by split_ifs <;> omega),
      chart_isSome_of_bounds "D10" _ (by split_ifs <;> omega)
        (by split_ifs <;> omega),
      chart_isSome_of_bounds "D12" _ (by omega) (by omega)⟩
  · intro h360
    have hq : (12 : ℚ) ≤ lon / 30 := by
      rw [le_div_iff₀ (by norm_num : (0:ℚ) < 30)]
      linarith
    have hfl : (12 : ℤ) ≤ ⌊lon / 30⌋ := Int.le_floor.mpr (by exact_mod_cast hq)
    have hpy : (12 : ℤ) ≤ pyInt (lon / 30) := by
      rw [pyInt_of_nonneg (by linarith : (0:ℚ) ≤ lon / 30)]
      exact hfl
    have hnone : pyIndex Divisional.SIGNS (pyInt (lon / 30) + 1 - 1) = none := by
      apply pyIndex_none_of_ge _ (by omega)
      simp only [Divisional.SIGNS]
      simp
      omega
    simp only [Divisional.get_d1_position]
    rw [hnone]
    rfl

/-- C8 witness: longitude 10 satisfies the range hypotheses and all seven
charts succeed; longitude 400 is past the range and D1 fails. -/
theorem C8_divisional_range_witness :
    ((Divisional.get_d1_position 10).isSome ∧
      (Divisional.get_d2_position 10).isSome ∧
      (Divisional.get_d3_position 10).isSome ∧
      (Divisional.get_d7_position 10).isSome ∧
      (Divisional.get_d9_position 10).isSome ∧
      (Divisional.get_d10_position 10).isSome ∧
      (Divisional.get_d12_position 10).isSome) ∧
    Divisional.get_d1_position 400 = none :=
  ⟨(C8_divisional_range_amended 10).1 (by norm_num) (by norm_num),
   (C8_divisional_range_amended 400).2 (by norm_num)⟩

theorem dictGet_append_some {α β : Type} [DecidableEq α] {d₁ : List (α × β)}
    (d₂ : List (α × β)) {k : α} {x : β} (h : dictGet d₁ k = some x) :
    dictGet (d₁ ++ d₂) k = some x := by
  induction d₁ with
  | nil => simp [dictGet] at h
  | cons hd tl ih =>
    obtain ⟨k₁, v₁⟩ := hd
    simp only [dictGet] at h
    simp only [List.cons_append, dictGet]
    by_cases hk : k = k₁
    · rw [if_pos hk] at h
      rw [if_pos hk]
      exact h
    · rw [if_neg hk] at h
      rw [if_neg hk]
      exact ih h

theorem dictGet_append_none {α β : Type} [DecidableEq α] {d₁ : List (α × β)}
    (d₂ : List (α × β)) {k : α} (h : dictGet d₁ k = none) :
    dictGet (d₁ ++ d₂) k = dictGet d₂ k := by
  induction d₁ with
  | nil => rfl
  | cons hd tl ih =>
    obtain ⟨k₁, v₁⟩ := hd
    simp only [dictGet] at h
    simp only [List.cons_append, dictGet]
    by_cases hk : k = k₁
    · rw [if_pos hk] at h
      exact absurd h (Option.some_ne_none _)
    · rw [if_neg hk] at h
      rw [if_neg hk]
      exact ih h

theorem dictGet_overwrite_self {α β : Type} [DecidableEq α] {d : List (α × β)}
    {k : α} (v : β) {x : β} (h : dictGet d k = some x) :
    dictGet (d.map (fun kv => if kv.1 = k then (k, v) else kv)) k = some v := by
  induction d with
  | nil => simp [dictGet] at h
  | cons hd tl ih =>
    obtain ⟨k₁, v₁⟩ := hd
    simp only [dictGet] at h
    simp only [List.map_cons]
    split_ifs with h1
    · simp [dictGet]
    · have hne : ¬(k = k₁) := fun hh => h1 (by simp [hh.symm])
      rw [if_neg hne] at h
      simp only [dictGet]
      rw [if_neg hne]
      exact ih h

theorem dictGet_overwrite_ne {α β : Type} [DecidableEq α] (d : List (α × β))
    {k k' : α} (v : β) (hne : k ≠ k') :
    dictGet (d.map (fun kv => if kv.1 = k' then (k', v) else kv)) k =
      dictGet d k := by
  induction d with
  | nil => rfl
  | cons hd tl ih =>
    obtain ⟨k₁, v₁⟩ := hd
    simp only [List.map_cons]
    split_ifs with h1
    · have hk1 : k₁ = k' := by simpa using h1
      have hne1 : ¬(k = k₁) := by rw [hk1]; exact hne
      simp only [dictGet]
      rw [if_neg hne, if_neg hne1]
      exact ih
    · simp only [dictGet]
      by_cases hk : k = k₁
      · rw [if_pos hk, if_pos hk]
      · rw [if_neg hk, if_neg hk]
        exact ih

theorem dictGet_dictSet_self {α β : Type} [DecidableEq α] (d : List (α × β))
    (k : α) (v : β) : dictGet (dictSet d k v) k = some v := by
  unfold dictSet
  split_ifs with h
  · obtain ⟨x, hx⟩ := Option.isSome_iff_exists.mp h
    exact dictGet_overwrite_self v hx
  · have hnone : dictGet d k = none := Option.not_isSome_iff_eq_none.mp h
    rw [dictGet_append_none _ hnone]
    simp [dictGet]

theorem dictGet_dictSet_isSome_mono {α β : Type} [DecidableEq α]
    (d : List (α × β)) (k' : α) (v : β) (k : α)
    (h : (dictGet d k).isSome) : (dictGet (dictSet d k' v) k).isSome := by
  by_cases hk : k = k'
  · subst hk
    rw [dictGet_dictSet_self]
    rfl
  · unfold dictSet
    split_ifs with h'
    · rw [dictGet_overwrite_ne d v hk]
      exact h
    · obtain ⟨x, hx⟩ := Option.isSome_iff_exists.mp h
      rw [dictGet_append_some _ hx]
      rfl

/-- Skipped entries (empty name or falsy longitude) contribute nothing to
the resolved planets dict: the fold over the full list equals the fold over
the filtered list. -/
theorem foldl_resolve_filter (asc : ℚ) (ps : List Yogas.PlanetInput) :
    ∀ acc, ps.foldl (Yogas.resolve_step asc) acc =
      (ps.filter (fun p => !(p.name == "" || p.fullDegree == 0))).foldl
        (Yogas.resolve_step asc) acc := by
  induction ps with
  | nil => intro acc; rfl
  | cons p tl ih =>
    intro acc
    by_cases hp : p.name = "" ∨ p.fullDegree = 0
    · have hstep : Yogas.resolve_step asc acc p = acc := by
        unfold Yogas.resolve_step
        rw [if_pos hp]
      have hfil : (!(p.name == "" || p.fullDegree == 0)) = false := by
        rcases hp with h | h <;> simp [h]
      simp only [List.foldl_cons, List.filter_cons, hfil, hstep]
      simp only [Bool.false_eq_true, if_false]
      exact ih acc
    · have hfil : (!(p.name == "" || p.fullDegree == 0)) = true := by
        push_neg at hp
        simp [hp.1, hp.2]
      simp only [List.foldl_cons, List.filter_cons, hfil, if_true]
      exact ih (Yogas.resolve_step asc acc p)

/-- A key present in the accumulator, or carried by a kept entry of the
remaining list, is present after the fold. -/
theorem resolve_key_isSome (asc : ℚ) (ps : List Yogas.PlanetInput) :
    ∀ (acc : List (String × Yogas.ResolvedPlanet)) (k : String),
      ((dictGet acc k).isSome ∨
        ∃ p ∈ ps, ¬(p.name = "" ∨ p.fullDegree = 0) ∧ p.name = k) →
      (dictGet (ps.foldl (Yogas.resolve_step asc) acc) k).isSome := by
  induction ps with
  | nil =>
    intro acc k h
    rcases h with h | ⟨p, hp, _⟩
    · exact h
    · simp at hp
  | cons p tl ih =>
    intro acc k h
    simp only [List.foldl_cons]
    apply ih
    rcases h with hacc | ⟨p₀, hp₀, hkeep, hname⟩
    · left
      unfold Yogas.resolve_step
      split_ifs
      · exact hacc
      · exact dictGet_dictSet_isSome_mono _ _ _ _ hacc
    · rcases List.mem_cons.mp hp₀ with rfl | hmem
      · left
        unfold Yogas.resolve_step
        rw [if_neg hkeep, ← hname]
        rw [dictGet_dictSet_self]
        rfl
      · right
        exact ⟨p₀, hmem, hkeep, hname⟩

/-- C10: detect_yogas silently drops any planets_list entry whose name is
empty or whose longitude is exactly 0 (`if not name or not lon` treats the
float 0.0 as missing), and every entry with a nonempty name and longitude
in (0,360) ends up as a key of the resolved chart. -/
theorem C10_falsy_longitude_exclusion (ps : List Yogas.PlanetInput) (asc : ℚ) :
    Yogas.resolve_planets ps asc =
      Yogas.resolve_planets
        (ps.filter (fun p => !(p.name == "" || p.fullDegree == 0))) asc ∧
    ∀ p ∈ ps, p.name ≠ "" → 0 < p.fullDegree → p.fullDegree < 360 →
      (dictGet (Yogas.resolve_planets ps asc) p.name).isSome := by
  constructor
  · exact foldl_resolve_filter asc ps []
  · intro p hp hname h0 h1
    apply resolve_key_isSome
    right
    refine ⟨p, hp, fun h => ?_, rfl⟩
    rcases h with h | h
    · exact hname h
    · rw [h] at h0
      exact lt_irrefl 0 h0

/-- C10 witness: a list with a normal entry, a zero-longitude entry and a
nameless entry; the fold ignores the latter two and keeps the first. -/
theorem C10_falsy_longitude_exclusion_witness :
    (Yogas.resolve_planets [⟨"Sun", 100⟩, ⟨"Moon", 0⟩, ⟨"", 50⟩] 10 =
      Yogas.resolve_planets
        (([⟨"Sun", 100⟩, ⟨"Moon", 0⟩, ⟨"", 50⟩] : List Yogas.PlanetInput).filter
          (fun p => !(p.name == "" || p.fullDegree == 0))) 10) ∧
    (dictGet (Yogas.resolve_planets [⟨"Sun", 100⟩, ⟨"Moon", 0⟩, ⟨"", 50⟩] 10)
      "Sun").isSome :=
  ⟨(C10_falsy_longitude_exclusion [⟨"Sun", 100⟩, ⟨"Moon", 0⟩, ⟨"", 50⟩] 10).1,
   (C10_falsy_longitude_exclusion [⟨"Sun", 100⟩, ⟨"Moon", 0⟩, ⟨"", 50⟩] 10).2
     ⟨"Sun", 100⟩ (List.mem_cons_self _ _) (by simp) (by norm_num) (by norm_num)⟩
